import Mathlib

/-!
Verification development for the secure-token smart-lock repository.

The server (Express + SQLite) is embedded as pure functions over an explicit
`ServerState` holding the four tables (`enrollments`, `identity_map`,
`short_tokens`, `rate_limits`) as association lists keyed by their primary
keys.  Each HTTP handler becomes a function `ServerState → args → result ×
ServerState`; the current time and the randomly generated token are passed as
explicit parameters.  The two firmware LiDAR frame decoders are embedded as
recursive functions over the list of bytes available on the serial port
during the read window; exhausting the list models the read-loop timeout.
-/

namespace SmartLock

/-- Constants from the server source: short-token TTL (1 minute). -/
def SHORT_TOKEN_TTL_MS : Int := 1 * 60 * 1000

/-- RSSI threshold: device signal must be at least -70 dBm. -/
def RSSI_THRESHOLD : Int := -70

/-- Distance threshold in centimetres. -/
def DISTANCE_THRESHOLD : Int := 90

/-- Rate-limit window: 3 minutes in milliseconds. -/
def WINDOW_MS : Int := 3 * 60 * 1000

/-- Rate limit: maximum 3 access requests per window. -/
def MAX_REQUESTS : Nat := 3

/-- Default enrollment lifetime used by enroll when no expiry is supplied. -/
def DEFAULT_ENROLL_TTL_MS : Int := 120 * 24 * 60 * 60 * 1000

/-- Row of the `enrollments` table (the token string is the key). -/
structure Enrollment where
  permissions : String
  created_at : Int
  expires_at : Int
deriving DecidableEq, Repr

/-- Row of the `short_tokens` table (the token string is the key). -/
structure ShortToken where
  enrollment_token : String
  created_at : Int
  expires_at : Int
  used : Nat
deriving DecidableEq, Repr

/-- Row of the `rate_limits` table (the enrollment token is the key). -/
structure RateRow where
  requests : List Int
  suspended_until : Int
deriving DecidableEq, Repr

/-- The whole SQLite database.  `identityMap` maps student id to token. -/
structure ServerState where
  enrollments : List (String × Enrollment)
  identityMap : List (String × String)
  shortTokens : List (String × ShortToken)
  rateLimits : List (String × RateRow)
deriving DecidableEq, Repr

/-- SELECT by primary key: first row whose key matches. -/
def findRow (k : String) : List (String × α) → Option α
  | [] => none
  | (k₂, v) :: t => if k₂ = k then some v else findRow k t

/-- DELETE WHERE key = k. -/
def eraseRow (k : String) : List (String × α) → List (String × α)
  | [] => []
  | (k₂, v) :: t => if k₂ = k then eraseRow k t else (k₂, v) :: eraseRow k t

/-- UPDATE short_tokens SET used = u WHERE token = k. -/
def setUsed (k : String) (u : Nat) : List (String × ShortToken) → List (String × ShortToken)
  | [] => []
  | (k₂, v) :: t =>
      (if k₂ = k then (k₂, { v with used := u }) else (k₂, v)) :: setUsed k u t

/-- INSERT OR REPLACE for the rate_limits table. -/
def upsertRate (k : String) (row : RateRow) : List (String × RateRow) → List (String × RateRow)
  | [] => [(k, row)]
  | (k₂, v) :: t => if k₂ = k then (k₂, row) :: t else (k₂, v) :: upsertRate k row t

/-- Does `needle` match at the head of `hay`? -/
def subAt : List Char → List Char → Bool
  | [], _ => true
  | _ :: _, [] => false
  | c :: cs, h :: hs => c == h && subAt cs hs

/-- JavaScript `hay.includes(needle)`: contiguous substring test. -/
def hasSub : List Char → List Char → Bool
  | [], needle => needle.isEmpty
  | c :: t, needle => subAt needle (c :: t) || hasSub t needle

/-- Result of POST /validate: a 400 error, a denial with its reason string,
or a grant. -/
inductive VResult where
  | err (msg : String)
  | deny (reason : String)
  | grant
deriving DecidableEq, Repr

/-- Server check `rssi < RSSI_THRESHOLD` guarded by `typeof rssi !== "undefined"`. -/
def rssiTooWeak : Option Int → Bool
  | some r => decide (r < RSSI_THRESHOLD)
  | none => false

/-- Server check `distanceCm > DISTANCE_THRESHOLD` guarded by
`typeof distanceCm !== "undefined"`. -/
def distTooFar : Option Int → Bool
  | some dc => decide (DISTANCE_THRESHOLD < dc)
  | none => false

/-- The first database access of POST /validate: the read of the short-token
row.  Kept separate because the handler's later writes act on whatever the
database contains at write time, while the checks use this snapshot. -/
def validateGetEntry (s : ServerState) (token : String) : Option ShortToken :=
  findRow token s.shortTokens

/-- Everything POST /validate does after its initial short-token read, acting
on the snapshot `entry` but reading the enrollments table and performing all
writes against the state `s` current at that point. -/
def validateAfterEntry (s : ServerState) (token : String) (entry : Option ShortToken)
    (rssi distanceCm : Option Int) (doorId : String) (now : Int) :
    VResult × ServerState :=
  match entry with
  | none => (.deny "unknown_or_expired", s)
  | some entry =>
    if entry.expires_at ≤ now then
      (.deny "expired", { s with shortTokens := eraseRow token s.shortTokens })
    else if entry.used = 1 then (.deny "already_used", s)
    else if entry.used = 2 then (.deny "already_denied", s)
    else
      match findRow entry.enrollment_token s.enrollments with
      | none =>
          (.deny "access_revoked", { s with shortTokens := setUsed token 2 s.shortTokens })
      | some user =>
        if user.permissions = "ALL" ∨ hasSub user.permissions.data doorId.data = true then
          if rssiTooWeak rssi then
            (.deny "rssi_too_weak", { s with shortTokens := setUsed token 2 s.shortTokens })
          else if distTooFar distanceCm then
            (.deny "distance_too_far", { s with shortTokens := setUsed token 2 s.shortTokens })
          else (.grant, { s with shortTokens := setUsed token 1 s.shortTokens })
        else
          (.deny "insufficient_permissions",
            { s with shortTokens := setUsed token 2 s.shortTokens })

/-- POST /validate, sequential execution: request-body guards, then the
short-token read, then the rest of the handler. -/
def validate (s : ServerState) (token : String) (rssi distanceCm : Option Int)
    (doorId : String) (now : Int) : VResult × ServerState :=
  if token = "" then (.err "token required", s)
  else if doorId = "" then (.err "doorId required", s)
  else validateAfterEntry s token (validateGetEntry s token) rssi distanceCm doorId now

/-- Outcome of the rate-limiting block of POST /request-token: deny because a
suspension is already active (no write), deny and record a fresh suspension,
or allow and record the updated window. -/
inductive AdmitOutcome where
  | denyActive (suspendedUntil : Int)
  | denySuspend (row : RateRow)
  | allow (row : RateRow)
deriving DecidableEq, Repr

/-- The rate-limiting logic of POST /request-token over the credential's
current rate row (defaulting to an empty window when no row exists). -/
def rateAdmit (rateData : RateRow) (now : Int) : AdmitOutcome :=
  if rateData.suspended_until > now then .denyActive rateData.suspended_until
  else
    let reqs := rateData.requests.filter (fun ts => decide (ts > now - WINDOW_MS))
    if reqs.length ≥ MAX_REQUESTS then .denySuspend ⟨[], now + WINDOW_MS⟩
    else .allow ⟨reqs ++ [now], 0⟩

/-- Result of POST /request-token. -/
inductive RResult where
  | err (msg : String)
  | rateLimited (suspendedUntil : Int)
  | issued (token : String) (expiresAt : Int)
deriving DecidableEq, Repr

/-- POST /request-token: existence and expiry check on the enrollment, rate
limiting, then insertion of a fresh Pending short token.  `newTok` stands for
the randomly generated token string. -/
def requestToken (s : ServerState) (enrollmentToken : String) (now : Int)
    (newTok : String) : RResult × ServerState :=
  if enrollmentToken = "" then (.err "enrollmentToken required", s)
  else
    match findRow enrollmentToken s.enrollments with
    | none => (.err "unknown enrollmentToken", s)
    | some user =>
      if user.expires_at < now then (.err "enrollment_expired", s)
      else
        let rateData := (findRow enrollmentToken s.rateLimits).getD ⟨[], 0⟩
        match rateAdmit rateData now with
        | .denyActive u => (.rateLimited u, s)
        | .denySuspend row =>
            (.rateLimited row.suspended_until,
              { s with rateLimits := upsertRate enrollmentToken row s.rateLimits })
        | .allow row =>
            let s₁ := { s with rateLimits := upsertRate enrollmentToken row s.rateLimits }
            if (findRow newTok s₁.shortTokens).isSome then (.err "internal error", s₁)
            else
              (.issued newTok (now + SHORT_TOKEN_TTL_MS),
                { s₁ with shortTokens :=
                    s₁.shortTokens ++ [(newTok, ⟨enrollmentToken, now, now + SHORT_TOKEN_TTL_MS, 0⟩)] })

/-- Result of POST /enroll. -/
inductive EResult where
  | unauthorized
  | badRequest
  | duplicateKey
  | ok
deriving DecidableEq, Repr

/-- POST /enroll: two separate INSERTs (enrollments, then identity_map) with
no surrounding transaction; a primary-key or uniqueness conflict on either
insert surfaces as the duplicate-key error, and a conflict on the second
insert leaves the first insert in place. -/
def enroll (s : ServerState) (enrollmentToken studentId : String)
    (permissions : Option String) (expiresAt : Option Int)
    (adminSecret adminActual : String) (now : Int) : EResult × ServerState :=
  if adminSecret ≠ adminActual then (.unauthorized, s)
  else if enrollmentToken = "" ∨ studentId = "" then (.badRequest, s)
  else
    let expiry := match expiresAt with
      | some e => if e = 0 then now + DEFAULT_ENROLL_TTL_MS else e
      | none => now + DEFAULT_ENROLL_TTL_MS
    let perms := match permissions with
      | some p => if p = "" then "ALL" else p
      | none => "ALL"
    if (findRow enrollmentToken s.enrollments).isSome then (.duplicateKey, s)
    else
      let s₁ := { s with enrollments := s.enrollments ++ [(enrollmentToken, ⟨perms, now, expiry⟩)] }
      if (findRow studentId s₁.identityMap).isSome
          ∨ s₁.identityMap.any (fun p => p.2 == enrollmentToken) then
        (.duplicateKey, s₁)
      else (.ok, { s₁ with identityMap := s₁.identityMap ++ [(studentId, enrollmentToken)] })

/-- Result of POST /revoke-enrollment. -/
inductive RevResult where
  | unauthorized
  | badRequest
  | notFound
  | ok
deriving DecidableEq, Repr

/-- POST /revoke-enrollment: look up the token in identity_map, delete the
enrollment row, delete the identity_map row.  No other table is touched. -/
def revoke (s : ServerState) (studentId : String) (adminSecret adminActual : String) :
    RevResult × ServerState :=
  if adminSecret ≠ adminActual then (.unauthorized, s)
  else if studentId = "" then (.badRequest, s)
  else
    match findRow studentId s.identityMap with
    | none => (.notFound, s)
    | some tok =>
        (.ok, { s with enrollments := eraseRow tok s.enrollments,
                       identityMap := eraseRow studentId s.identityMap })

/-- Result of GET /check-status. -/
inductive Status where
  | badRequest
  | expired
  | granted
  | denied
  | pending
deriving DecidableEq, Repr

/-- GET /check-status: a missing row reads as expired; otherwise the `used`
column alone decides the reported status. -/
def checkStatus (s : ServerState) (token : String) : Status :=
  if token = "" then .badRequest
  else
    match findRow token s.shortTokens with
    | none => .expired
    | some e => if e.used = 1 then .granted else if e.used = 2 then .denied else .pending

/-- Frame decoder of the BLE firmware variant: scan for two 0x59 sync bytes,
read the remaining seven frame bytes, verify the checksum (low byte of the
sum of the first eight frame bytes), and accept the little-endian distance
only when the checksum matches and the value is strictly between 0 and 1200;
otherwise keep scanning, and return 999 when the stream runs out. -/
def getRobustLidarDistanceBLE : List Nat → Nat
  | b0 :: b1 :: b2 :: b3 :: b4 :: b5 :: b6 :: b7 :: b8 :: rest =>
    if b0 = 0x59 then
      if b1 = 0x59 then
        if (0x59 + 0x59 + b2 + b3 + b4 + b5 + b6 + b7) % 256 = b8 then
          if 0 < b2 + b3 * 256 ∧ b2 + b3 * 256 < 1200 then b2 + b3 * 256
          else getRobustLidarDistanceBLE rest
        else getRobustLidarDistanceBLE rest
      else getRobustLidarDistanceBLE (b1 :: b2 :: b3 :: b4 :: b5 :: b6 :: b7 :: b8 :: rest)
    else getRobustLidarDistanceBLE (b1 :: b2 :: b3 :: b4 :: b5 :: b6 :: b7 :: b8 :: rest)
  | _ => 999

/-- Frame decoder of the WebServer firmware variant (main.ino): scan for two
0x59 sync bytes, read the little-endian distance, consume the remaining five
frame bytes without inspecting them, and accept any distance strictly between
0 and 1200; return 999 when the stream runs out. -/
def getRobustLidarDistanceWS : List Nat → Nat
  | b0 :: b1 :: b2 :: b3 :: b4 :: b5 :: b6 :: b7 :: b8 :: rest =>
    if b0 = 0x59 then
      if b1 = 0x59 then
        if 0 < b2 + b3 * 256 ∧ b2 + b3 * 256 < 1200 then b2 + b3 * 256
        else getRobustLidarDistanceWS rest
      else getRobustLidarDistanceWS (b1 :: b2 :: b3 :: b4 :: b5 :: b6 :: b7 :: b8 :: rest)
    else getRobustLidarDistanceWS (b1 :: b2 :: b3 :: b4 :: b5 :: b6 :: b7 :: b8 :: rest)
  | _ => 999

/-- Is a checksum-valid sync-led frame sitting at the head of the list? -/
def syncFrameOk : List Nat → Bool
  | b0 :: b1 :: b2 :: b3 :: b4 :: b5 :: b6 :: b7 :: b8 :: _ =>
      decide (b0 = 0x59 ∧ b1 = 0x59 ∧ (0x59 + 0x59 + b2 + b3 + b4 + b5 + b6 + b7) % 256 = b8)
  | _ => false

/-- Every frame of the stream carries a corrupted checksum: at no offset does
a checksum-valid sync-led frame begin. -/
def allCorrupt (bytes : List Nat) : Prop :=
  ∀ i < bytes.length, syncFrameOk (bytes.drop i) = false

instance (bytes : List Nat) : Decidable (allCorrupt bytes) :=
  inferInstanceAs (Decidable (∀ i < bytes.length, syncFrameOk (bytes.drop i) = false))

/-! Helper lemmas about the row operations. -/

theorem findRow_setUsed_self (k : String) (u : Nat) (l : List (String × ShortToken)) :
    findRow k (setUsed k u l) = (findRow k l).map (fun e => { e with used := u }) := by
  induction l with
  | nil => rfl
  | cons p t ih =>
    obtain ⟨k₂, v⟩ := p
    simp only [setUsed]
    split
    · next h =>
        simp [findRow, h, ih]
    · next h =>
        simp [findRow, h, ih]

theorem findRow_setUsed_other (k k₂ : String) (u : Nat) (l : List (String × ShortToken))
    (h : k ≠ k₂) : findRow k (setUsed k₂ u l) = findRow k l := by
  induction l with
  | nil => rfl
  | cons p t ih =>
    obtain ⟨k₃, v⟩ := p
    simp only [setUsed]
    split
    · next h₃ =>
        subst h₃
        simp [findRow, Ne.symm h, ih]
    · next h₃ =>
        by_cases h₄ : k₃ = k
        · subst h₄
          simp [findRow, ih]
        · simp [findRow, h₄, ih]

theorem findRow_eraseRow_self (k : String) (l : List (String × α)) :
    findRow k (eraseRow k l) = none := by
  induction l with
  | nil => rfl
  | cons p t ih =>
    obtain ⟨k₂, v⟩ := p
    by_cases h : k₂ = k
    · subst h
      simp [eraseRow, ih]
    · simp [eraseRow, findRow, h, ih]

theorem findRow_eraseRow_other (k k₂ : String) (l : List (String × α))
    (h : k ≠ k₂) : findRow k (eraseRow k₂ l) = findRow k l := by
  induction l with
  | nil => rfl
  | cons p t ih =>
    obtain ⟨k₃, v⟩ := p
    by_cases h₃ : k₃ = k₂
    · subst h₃
      simp [eraseRow, findRow, Ne.symm h, ih]
    · by_cases h₄ : k₃ = k
      · subst h₄
        simp [eraseRow, findRow, h₃, ih]
      · simp [eraseRow, findRow, h₃, h₄, ih]

/-- Anatomy of a grant: validate returns grant only for a stored, unexpired,
non-terminal token whose sensor checks passed, and then commits used = 1. -/
theorem validate_grant_shape (s : ServerState) (tok : String) (r d : Option Int)
    (door : String) (now : Int)
    (h : (validate s tok r d door now).1 = VResult.grant) :
    ∃ e, findRow tok s.shortTokens = some e ∧ ¬ e.expires_at ≤ now
      ∧ e.used ≠ 1 ∧ e.used ≠ 2
      ∧ rssiTooWeak r = false ∧ distTooFar d = false
      ∧ (validate s tok r d door now).2
          = { s with shortTokens := setUsed tok 1 s.shortTokens } := by
  by_cases h₁ : tok = ""
  · simp [validate, h₁] at h
  by_cases h₂ : door = ""
  · simp [validate, h₁, h₂] at h
  simp only [validate, validateGetEntry, if_neg h₁, if_neg h₂] at h ⊢
  cases hfind : findRow tok s.shortTokens with
  | none => simp [validateAfterEntry, hfind] at h
  | some e =>
    simp only [validateAfterEntry, hfind] at h ⊢
    by_cases hexp : e.expires_at ≤ now
    · simp [hexp] at h
    by_cases hu1 : e.used = 1
    · simp [hexp, hu1] at h
    by_cases hu2 : e.used = 2
    · simp [hexp, hu1, hu2] at h
    cases huser : findRow e.enrollment_token s.enrollments with
    | none => simp [hexp, hu1, hu2, huser] at h
    | some user =>
      by_cases hperm : user.permissions = "ALL" ∨ hasSub user.permissions.data door.data = true
      · by_cases hr : rssiTooWeak r = true
        · simp [hexp, hu1, hu2, huser, hperm, hr] at h
        · by_cases hd : distTooFar d = true
          · simp [hexp, hu1, hu2, huser, hperm, hr, hd] at h
          · simp only [Bool.not_eq_true] at hr hd
            exact ⟨e, rfl, hexp, hu1, hu2, hr, hd,
              by simp [hexp, hu1, hu2, huser, hperm, hr, hd]⟩
      · simp [hexp, hu1, hu2, huser, hperm] at h

/-- The state written by validate is always one of: unchanged, the validated
token's row purged, or the validated token's used flag set to 1 or 2 — and a
used flag is only written when the stored row was not already terminal. -/
theorem validate_state_shape (s : ServerState) (tok : String) (r d : Option Int)
    (door : String) (now : Int) :
    (validate s tok r d door now).2 = s
    ∨ (validate s tok r d door now).2 = { s with shortTokens := eraseRow tok s.shortTokens }
    ∨ ∃ u e, (u = 1 ∨ u = 2)
        ∧ (validate s tok r d door now).2 = { s with shortTokens := setUsed tok u s.shortTokens }
        ∧ findRow tok s.shortTokens = some e ∧ e.used ≠ 1 ∧ e.used ≠ 2 := by
  by_cases h₁ : tok = ""
  · simp [validate, h₁]
  by_cases h₂ : door = ""
  · simp [validate, h₁, h₂]
  simp only [validate, validateGetEntry, if_neg h₁, if_neg h₂]
  cases hfind : findRow tok s.shortTokens with
  | none => simp [validateAfterEntry, hfind]
  | some e =>
    simp only [validateAfterEntry]
    by_cases hexp : e.expires_at ≤ now
    · simp [hexp]
    by_cases hu1 : e.used = 1
    · simp [hexp, hu1]
    by_cases hu2 : e.used = 2
    · simp [hexp, hu1, hu2]
    cases huser : findRow e.enrollment_token s.enrollments with
    | none =>
        refine Or.inr (Or.inr ⟨2, e, Or.inr rfl, ?_, rfl, hu1, hu2⟩)
        simp [hexp, hu1, hu2, huser]
    | some user =>
      by_cases hperm : user.permissions = "ALL" ∨ hasSub user.permissions.data door.data = true
      · by_cases hr : rssiTooWeak r = true
        · refine Or.inr (Or.inr ⟨2, e, Or.inr rfl, ?_, rfl, hu1, hu2⟩)
          simp [hexp, hu1, hu2, huser, hperm, hr]
        · by_cases hd : distTooFar d = true
          · refine Or.inr (Or.inr ⟨2, e, Or.inr rfl, ?_, rfl, hu1, hu2⟩)
            simp [hexp, hu1, hu2, huser, hperm, hr, hd]
          · refine Or.inr (Or.inr ⟨1, e, Or.inl rfl, ?_, rfl, hu1, hu2⟩)
            simp [hexp, hu1, hu2, huser, hperm, hr, hd]
      · refine Or.inr (Or.inr ⟨2, e, Or.inr rfl, ?_, rfl, hu1, hu2⟩)
        simp [hexp, hu1, hu2, huser, hperm]

/-- A distance reading above the threshold never produces a grant. -/
theorem validate_far_distance_no_grant (s : ServerState) (tok : String)
    (r : Option Int) (dc : Int) (door : String) (now : Int)
    (hdc : DISTANCE_THRESHOLD < dc) :
    (validate s tok r (some dc) door now).1 ≠ VResult.grant := by
  intro h
  obtain ⟨e, _, _, _, _, _, hd, _⟩ := validate_grant_shape s tok r (some dc) door now h
  simp [distTooFar, hdc] at hd

/-! Lemmas about the corrupted-checksum predicate. -/

theorem allCorrupt_tail {b : Nat} {l : List Nat} (h : allCorrupt (b :: l)) :
    allCorrupt l := by
  intro i hi
  have h₂ := h (i + 1) (by simpa using Nat.succ_lt_succ hi)
  simpa using h₂

theorem allCorrupt_head {l : List Nat} (h : allCorrupt l) : syncFrameOk l = false := by
  cases l with
  | nil => rfl
  | cons b t => simpa using h 0 (Nat.succ_pos _)

/-- The BLE decoder never accepts a frame from a stream in which every
sync-led frame has a mismatched checksum. -/
theorem bleCorruptAux : (bytes : List Nat) → allCorrupt bytes →
    getRobustLidarDistanceBLE bytes = 999
  | b0 :: b1 :: b2 :: b3 :: b4 :: b5 :: b6 :: b7 :: b8 :: rest, h => by
    have htail : allCorrupt (b1 :: b2 :: b3 :: b4 :: b5 :: b6 :: b7 :: b8 :: rest) :=
      allCorrupt_tail h
    have h9 : allCorrupt rest :=
      allCorrupt_tail (allCorrupt_tail (allCorrupt_tail (allCorrupt_tail
        (allCorrupt_tail (allCorrupt_tail (allCorrupt_tail (allCorrupt_tail
          (allCorrupt_tail h))))))))
    have hhead := allCorrupt_head h
    by_cases hb0 : b0 = 0x59
    · by_cases hb1 : b1 = 0x59
      · have hck : ¬ (0x59 + 0x59 + b2 + b3 + b4 + b5 + b6 + b7) % 256 = b8 := by
          simp [syncFrameOk, hb0, hb1] at hhead
          exact hhead
        simp only [getRobustLidarDistanceBLE, if_pos hb0, if_pos hb1, if_neg hck]
        exact bleCorruptAux rest h9
      · simp only [getRobustLidarDistanceBLE, if_pos hb0, if_neg hb1]
        exact bleCorruptAux _ htail
    · simp only [getRobustLidarDistanceBLE, if_neg hb0]
      exact bleCorruptAux _ htail
  | [], _ => rfl
  | [_], _ => rfl
  | [_, _], _ => rfl
  | [_, _, _], _ => rfl
  | [_, _, _, _], _ => rfl
  | [_, _, _, _, _], _ => rfl
  | [_, _, _, _, _, _], _ => rfl
  | [_, _, _, _, _, _, _], _ => rfl
  | [_, _, _, _, _, _, _, _], _ => rfl

/-- The BLE decoder returns the sentinel or an in-range distance. -/
theorem bleRangeAux : (bytes : List Nat) →
    getRobustLidarDistanceBLE bytes = 999
      ∨ (0 < getRobustLidarDistanceBLE bytes ∧ getRobustLidarDistanceBLE bytes < 1200)
  | b0 :: b1 :: b2 :: b3 :: b4 :: b5 :: b6 :: b7 :: b8 :: rest => by
    by_cases hb0 : b0 = 0x59
    · by_cases hb1 : b1 = 0x59
      · by_cases hck : (0x59 + 0x59 + b2 + b3 + b4 + b5 + b6 + b7) % 256 = b8
        · by_cases hrg : 0 < b2 + b3 * 256 ∧ b2 + b3 * 256 < 1200
          · simp only [getRobustLidarDistanceBLE, if_pos hb0, if_pos hb1, if_pos hck,
              if_pos hrg]
            exact Or.inr hrg
          · simp only [getRobustLidarDistanceBLE, if_pos hb0, if_pos hb1, if_pos hck,
              if_neg hrg]
            exact bleRangeAux rest
        · simp only [getRobustLidarDistanceBLE, if_pos hb0, if_pos hb1, if_neg hck]
          exact bleRangeAux rest
      · simp only [getRobustLidarDistanceBLE, if_pos hb0, if_neg hb1]
        exact bleRangeAux _
    · simp only [getRobustLidarDistanceBLE, if_neg hb0]
      exact bleRangeAux _
  | [] => Or.inl rfl
  | [_] => Or.inl rfl
  | [_, _] => Or.inl rfl
  | [_, _, _] => Or.inl rfl
  | [_, _, _, _] => Or.inl rfl
  | [_, _, _, _, _] => Or.inl rfl
  | [_, _, _, _, _, _] => Or.inl rfl
  | [_, _, _, _, _, _, _] => Or.inl rfl
  | [_, _, _, _, _, _, _, _] => Or.inl rfl

/-- The WebServer decoder returns the sentinel or an in-range distance. -/
theorem wsRangeAux : (bytes : List Nat) →
    getRobustLidarDistanceWS bytes = 999
      ∨ (0 < getRobustLidarDistanceWS bytes ∧ getRobustLidarDistanceWS bytes < 1200)
  | b0 :: b1 :: b2 :: b3 :: b4 :: b5 :: b6 :: b7 :: b8 :: rest => by
    by_cases hb0 : b0 = 0x59
    · by_cases hb1 : b1 = 0x59
      · by_cases hrg : 0 < b2 + b3 * 256 ∧ b2 + b3 * 256 < 1200
        · simp only [getRobustLidarDistanceWS, if_pos hb0, if_pos hb1, if_pos hrg]
          exact Or.inr hrg
        · simp only [getRobustLidarDistanceWS, if_pos hb0, if_pos hb1, if_neg hrg]
          exact wsRangeAux rest
      · simp only [getRobustLidarDistanceWS, if_pos hb0, if_neg hb1]
        exact wsRangeAux _
    · simp only [getRobustLidarDistanceWS, if_neg hb0]
      exact wsRangeAux _
  | [] => Or.inl rfl
  | [_] => Or.inl rfl
  | [_, _] => Or.inl rfl
  | [_, _, _] => Or.inl rfl
  | [_, _, _, _] => Or.inl rfl
  | [_, _, _, _, _] => Or.inl rfl
  | [_, _, _, _, _, _] => Or.inl rfl
  | [_, _, _, _, _, _, _] => Or.inl rfl
  | [_, _, _, _, _, _, _, _] => Or.inl rfl

/-! Concrete states used by the individual claims. -/

/-- One enrolled credential with universal permissions and one Pending,
unexpired short token for it. -/
def raceState : ServerState :=
  ⟨[("EVE", ⟨"ALL", 0, 1000000⟩)], [("60000000", "EVE")],
   [("TOK", ⟨"EVE", 0, 1000000, 0⟩)], []⟩

/-- C9: modelling the handler's read-then-write gap, two overlapping validate
requests on the same Pending token can both read the token while it is still
Pending (the initial short-token SELECT of each runs before either UPDATE)
and then both commit and report a grant: the Pending-to-Granted transition is
a blind UPDATE, not an atomic conditional update, so at-most-once-grant fails
under interleaving. -/
theorem validate_interleaved_double_grant :
    (validateAfterEntry raceState "TOK" (validateGetEntry raceState "TOK")
        (some (-60)) (some 50) "LAB_968" 10).1 = VResult.grant
    ∧ (validateAfterEntry
          (validateAfterEntry raceState "TOK" (validateGetEntry raceState "TOK")
            (some (-60)) (some 50) "LAB_968" 10).2
          "TOK" (validateGetEntry raceState "TOK")
          (some (-60)) (some 50) "LAB_968" 10).1 = VResult.grant := by decide

/-- A store holding credential T0 enrolled for student S1. -/
def dualInsertState : ServerState :=
  ⟨[("T0", ⟨"ALL", 0, 1000⟩)], [("S1", "T0")], [], []⟩

/-- C5: enrolling a fresh credential key T1 for the already-mapped student id
S1 reports the duplicate-key error, yet the credential row T1 stays inserted
while no identity-map row for it exists — the two inserts are not atomic and
the partial enrollment is observable in the resulting state. -/
theorem enroll_partial_enrollment_observable :
    (enroll dualInsertState "T1" "S1" none none "sec" "sec" 10).1 = EResult.duplicateKey
    ∧ (findRow "T1"
        (enroll dualInsertState "T1" "S1" none none "sec" "sec" 10).2.enrollments).isSome
        = true
    ∧ (enroll dualInsertState "T1" "S1" none none "sec" "sec" 10).2.identityMap.any
        (fun p => p.2 == "T1") = false := by decide

/-- A store whose short token T is already committed Granted (used = 1) but
whose expiry (50) has passed by time 60. -/
def c1CexState : ServerState :=
  ⟨[("E", ⟨"ALL", 0, 1000⟩)], [], [("T", ⟨"E", 0, 50, 1⟩)], []⟩

/-- C1 counterexample: a token already committed Granted (used = 1) that is
validated again after its expiry is rejected with reason expired — not
already_used — and its row is purged, so the claim's unconditional
already_used reason for subsequent calls fails. -/
theorem validate_expired_beats_already_used :
    (findRow "T" c1CexState.shortTokens).map ShortToken.used = some 1
    ∧ (validate c1CexState "T" none none "D" 60).1 = VResult.deny "expired"
    ∧ findRow "T" (validate c1CexState "T" none none "D" 60).2.shortTokens = none := by
  decide

/-- A store whose credential E expired at 50 but is not yet purged, with a
Pending short token for E that expires later, at 100. -/
def c2CexState : ServerState :=
  ⟨[("E", ⟨"ALL", 0, 50⟩)], [("S", "E")], [("T", ⟨"E", 40, 100, 0⟩)], []⟩

/-- C2 counterexample: at time 60 credential E is expired (expiry 50 ≤ 60)
and still stored, yet validate grants the Pending short token it owns —
validate never consults the owning credential's expiry. -/
theorem validate_grants_despite_expired_credential :
    (findRow "E" c2CexState.enrollments).map Enrollment.expires_at = some 50
    ∧ ((50 : Int) ≤ 60)
    ∧ (findRow "T" c2CexState.shortTokens).map ShortToken.enrollment_token = some "E"
    ∧ (validate c2CexState "T" (some (-60)) (some 50) "D" 60).1 = VResult.grant := by
  decide

/-- C3 counterexample: a 9-byte frame whose checksum byte is corrupted (no
sync-led frame of this stream passes the checksum), from which the
WebServer-variant decoder nevertheless returns the numeric distance 100. -/
theorem ws_decoder_accepts_corrupted_checksum :
    allCorrupt [0x59, 0x59, 100, 0, 0, 0, 0, 0, 0]
    ∧ getRobustLidarDistanceWS [0x59, 0x59, 100, 0, 0, 0, 0, 0, 0] = 100 := by decide

/-- A store whose short token T is Pending (used = 0) with expiry 50, already
in the past at time 60, and not yet purged. -/
def c6CexState : ServerState :=
  ⟨[("E", ⟨"ALL", 0, 1000⟩)], [], [("T", ⟨"E", 0, 50, 0⟩)], []⟩

/-- C6 counterexample: at time 60 token T is past its expiry (50 ≤ 60) and
still stored Pending; the status poll reports pending, not expired, because
check-status never consults the expiry column. -/
theorem checkStatus_pending_after_expiry :
    (findRow "T" c6CexState.shortTokens).map ShortToken.expires_at = some 50
    ∧ ((50 : Int) ≤ 60)
    ∧ checkStatus c6CexState "T" = Status.pending := by decide

/-- C10: each frame decoder returns either exactly the sentinel 999 or an
integer strictly between 0 and 1200; the sentinel exceeds the validator's
distance threshold of 90, so a validate call whose supplied distance is the
sentinel can never return a grant — sensor timeout fails closed. -/
theorem decoder_range_and_fail_closed :
    (∀ bytes : List Nat, getRobustLidarDistanceBLE bytes = 999
        ∨ (0 < getRobustLidarDistanceBLE bytes ∧ getRobustLidarDistanceBLE bytes < 1200))
    ∧ (∀ bytes : List Nat, getRobustLidarDistanceWS bytes = 999
        ∨ (0 < getRobustLidarDistanceWS bytes ∧ getRobustLidarDistanceWS bytes < 1200))
    ∧ DISTANCE_THRESHOLD < 999
    ∧ (∀ (s : ServerState) (tok : String) (r : Option Int) (door : String) (now : Int),
        (validate s tok r (some 999) door now).1 ≠ VResult.grant) :=
  ⟨bleRangeAux, wsRangeAux, by decide, fun s tok r door now =>
    validate_far_distance_no_grant s tok r 999 door now (by decide)⟩

/-- C3 (amended): the BLE-variant decoder accepts a distance only from a
checksum-valid frame: on a stream in which every sync-led frame carries a
corrupted checksum byte it never yields a numeric distance, returning the
sentinel 999 once its read window is exhausted.  (The WebServer-variant
decoder omits the checksum verification; see its counterexample.) -/
theorem getRobustLidarDistanceBLE_corrupt_sentinel (bytes : List Nat)
    (h : allCorrupt bytes) : getRobustLidarDistanceBLE bytes = 999 :=
  bleCorruptAux bytes h

/-- Instantiation of the corrupted-checksum theorem at a concrete stream. -/
theorem getRobustLidarDistanceBLE_corrupt_sentinel_witness :
    allCorrupt [0x59, 0x59, 7, 0, 0, 0, 0, 0, 0]
    ∧ getRobustLidarDistanceBLE [0x59, 0x59, 7, 0, 0, 0, 0, 0, 0] = 999 :=
  ⟨by decide, getRobustLidarDistanceBLE_corrupt_sentinel _ (by decide)⟩

/-- C1 (amended): sequential validate grants a token at most once.  Two
sequential calls never both grant; while unexpired, a token committed
Granted is rejected already_used and one committed Denied is rejected
already_denied, with no state change; once past expiry a stored token is
instead rejected expired and purged; and no validate call ever rewrites a
terminal (used = 1 or 2) flag — the row is either untouched or purged. -/
theorem validate_at_most_once_grant :
    (∀ (s : ServerState) (tok : String) (r₁ d₁ : Option Int) (door₁ : String) (now₁ : Int)
        (r₂ d₂ : Option Int) (door₂ : String) (now₂ : Int),
      (validate s tok r₁ d₁ door₁ now₁).1 = VResult.grant →
      (validate (validate s tok r₁ d₁ door₁ now₁).2 tok r₂ d₂ door₂ now₂).1 ≠ VResult.grant)
    ∧ (∀ (s : ServerState) (tok : String) (e : ShortToken) (r d : Option Int)
        (door : String) (now : Int), tok ≠ "" → door ≠ "" →
        findRow tok s.shortTokens = some e → ¬ e.expires_at ≤ now →
        (e.used = 1 → validate s tok r d door now = (.deny "already_used", s))
        ∧ (e.used = 2 → validate s tok r d door now = (.deny "already_denied", s)))
    ∧ (∀ (s : ServerState) (tok : String) (e : ShortToken) (r d : Option Int)
        (door : String) (now : Int), tok ≠ "" → door ≠ "" →
        findRow tok s.shortTokens = some e → e.expires_at ≤ now →
        validate s tok r d door now
          = (.deny "expired", { s with shortTokens := eraseRow tok s.shortTokens }))
    ∧ (∀ (s : ServerState) (tok₂ : String) (r d : Option Int) (door : String) (now : Int)
        (tok : String) (e : ShortToken),
        findRow tok s.shortTokens = some e → (e.used = 1 ∨ e.used = 2) →
        findRow tok (validate s tok₂ r d door now).2.shortTokens = none
        ∨ findRow tok (validate s tok₂ r d door now).2.shortTokens = some e) := by
  refine ⟨?_, ?_, ?_, ?_⟩
  · intro s tok r₁ d₁ door₁ now₁ r₂ d₂ door₂ now₂ hg1 hg2
    obtain ⟨e, hf, _, _, _, _, _, hs1⟩ := validate_grant_shape _ _ _ _ _ _ hg1
    obtain ⟨e₂, hf2, _, hu1, _, _, _, _⟩ := validate_grant_shape _ _ _ _ _ _ hg2
    rw [hs1] at hf2
    have he₂ : e₂ = { e with used := 1 } := by
      have := hf2
      simp only [findRow_setUsed_self, hf, Option.map_some] at this
      exact (Option.some.injEq _ _).mp this.symm
    exact hu1 (by rw [he₂])
  · intro s tok e r d door now htok hdoor hfind hexp
    constructor
    · intro hu
      simp [validate, validateGetEntry, validateAfterEntry, htok, hdoor, hfind, hexp, hu]
    · intro hu
      simp [validate, validateGetEntry, validateAfterEntry, htok, hdoor, hfind, hexp, hu]
  · intro s tok e r d door now htok hdoor hfind hexp
    simp [validate, validateGetEntry, validateAfterEntry, htok, hdoor, hfind, hexp]
  · intro s tok₂ r d door now tok e hf hterm
    rcases validate_state_shape s tok₂ r d door now with hs | hs | ⟨u, e₂, _, hs, hf₂, hn1, hn2⟩
    · rw [hs]
      exact Or.inr hf
    · rw [hs]
      by_cases heq : tok = tok₂
      · subst heq
        exact Or.inl (findRow_eraseRow_self tok s.shortTokens)
      · exact Or.inr (by rw [show ({ s with shortTokens := eraseRow tok₂ s.shortTokens } :
          ServerState).shortTokens = eraseRow tok₂ s.shortTokens from rfl,
          findRow_eraseRow_other tok tok₂ s.shortTokens heq]; exact hf)
    · rw [hs]
      by_cases heq : tok = tok₂
      · subst heq
        rw [hf] at hf₂
        cases hf₂
        rcases hterm with h | h
        · exact absurd h hn1
        · exact absurd h hn2
      · exact Or.inr (by rw [show ({ s with shortTokens := setUsed tok₂ u s.shortTokens } :
          ServerState).shortTokens = setUsed tok₂ u s.shortTokens from rfl,
          findRow_setUsed_other tok tok₂ u s.shortTokens heq]; exact hf)

/-- A store with a Pending, unexpired token for an all-doors credential. -/
def c1WitState : ServerState :=
  ⟨[("E", ⟨"ALL", 0, 1000000⟩)], [], [("T", ⟨"E", 0, 1000000, 0⟩)], []⟩

/-- Instantiation of at-most-once-grant: a first validate of T grants and the
immediate second validate of T does not. -/
theorem validate_at_most_once_grant_witness :
    (validate c1WitState "T" (some (-60)) (some 50) "D" 10).1 = VResult.grant
    ∧ (validate (validate c1WitState "T" (some (-60)) (some 50) "D" 10).2 "T"
        (some (-60)) (some 50) "D" 10).1 ≠ VResult.grant :=
  ⟨by decide, validate_at_most_once_grant.1 c1WitState "T" (some (-60)) (some 50) "D" 10
      (some (-60)) (some 50) "D" 10 (by decide)⟩

/-- C2 (amended): a token-issuance request for a credential whose expiry is
strictly before the current time is denied enrollment_expired with the store
unchanged, so no short token is created; validate, however, never consults
the owning credential's expiry, so a Pending unexpired short token is still
granted even when its owning credential's expiry has already passed. -/
theorem requestToken_enrollment_expiry :
    (∀ (s : ServerState) (etok : String) (now : Int) (ntok : String) (user : Enrollment),
      etok ≠ "" → findRow etok s.enrollments = some user → user.expires_at < now →
      requestToken s etok now ntok = (.err "enrollment_expired", s))
    ∧ (∀ (s : ServerState) (tok : String) (e : ShortToken) (user : Enrollment)
        (r dc : Int) (door : String) (now : Int),
        tok ≠ "" → door ≠ "" →
        findRow tok s.shortTokens = some e → ¬ e.expires_at ≤ now → e.used = 0 →
        findRow e.enrollment_token s.enrollments = some user →
        user.expires_at ≤ now → user.permissions = "ALL" →
        RSSI_THRESHOLD ≤ r → dc ≤ DISTANCE_THRESHOLD →
        validate s tok (some r) (some dc) door now
          = (.grant, { s with shortTokens := setUsed tok 1 s.shortTokens })) := by
  constructor
  · intro s etok now ntok user hetok hfind hlt
    simp [requestToken, hetok, hfind, hlt]
  · intro s tok e user r dc door now htok hdoor hfind hexp hused huser hcredexp hperm hr hdc
    have hrw : rssiTooWeak (some r) = false := by
      simp [rssiTooWeak, not_lt.mpr hr]
    have hdf : distTooFar (some dc) = false := by
      simp [distTooFar, not_lt.mpr hdc]
    simp [validate, validateGetEntry, validateAfterEntry, htok, hdoor, hfind, hexp, hused,
      huser, hperm, hrw, hdf]

/-- Instantiation: credential E expired at 50; at time 60 issuance is denied
with no state change, while its stored Pending token T is still granted. -/
theorem requestToken_enrollment_expiry_witness :
    requestToken c2CexState "E" 60 "NEW" = (.err "enrollment_expired", c2CexState)
    ∧ validate c2CexState "T" (some (-60)) (some 50) "D" 60
        = (.grant, { c2CexState with shortTokens := setUsed "T" 1 c2CexState.shortTokens }) :=
  ⟨requestToken_enrollment_expiry.1 c2CexState "E" 60 "NEW" ⟨"ALL", 0, 50⟩
      (by decide) (by decide) (by decide),
   requestToken_enrollment_expiry.2 c2CexState "T" ⟨"E", 40, 100, 0⟩ ⟨"ALL", 0, 50⟩
      (-60) 50 "D" 60 (by decide) (by decide) (by decide) (by decide) (by decide)
      (by decide) (by decide) (by decide) (by decide) (by decide)⟩

/-- Instantiation of the fail-closed theorem at a concrete stream and a
concrete validate call. -/
theorem decoder_range_and_fail_closed_witness :
    (getRobustLidarDistanceBLE [] = 999
      ∨ (0 < getRobustLidarDistanceBLE [] ∧ getRobustLidarDistanceBLE [] < 1200))
    ∧ ¬ (validate raceState "TOK" (some (-60)) (some 999) "LAB_968" 10).1 = VResult.grant :=
  ⟨decoder_range_and_fail_closed.1 [],
   decoder_range_and_fail_closed.2.2.2 raceState "TOK" (some (-60)) "LAB_968" 10⟩

/-- C4: for a stored, unexpired, Pending token with an existing owning
credential, validate applies permission → signal → distance in that order:
a permission string that is neither the universal marker nor covers the door
denies insufficient_permissions regardless of sensor readings; otherwise a
supplied RSSI below the threshold denies rssi_too_weak regardless of the
distance; otherwise a supplied distance above the threshold denies
distance_too_far; each denial commits used = 2, and if every check passes
the token is committed Granted (used = 1). -/
theorem validate_check_order :
    ∀ (s : ServerState) (tok : String) (e : ShortToken) (user : Enrollment)
      (r d : Option Int) (door : String) (now : Int),
      tok ≠ "" → door ≠ "" →
      findRow tok s.shortTokens = some e → ¬ e.expires_at ≤ now → e.used = 0 →
      findRow e.enrollment_token s.enrollments = some user →
      ((user.permissions ≠ "ALL" → hasSub user.permissions.data door.data = false →
          validate s tok r d door now
            = (.deny "insufficient_permissions",
               { s with shortTokens := setUsed tok 2 s.shortTokens }))
      ∧ (∀ rv : Int, (user.permissions = "ALL" ∨ hasSub user.permissions.data door.data = true) →
          r = some rv → rv < RSSI_THRESHOLD →
          validate s tok r d door now
            = (.deny "rssi_too_weak", { s with shortTokens := setUsed tok 2 s.shortTokens }))
      ∧ (∀ dv : Int, (user.permissions = "ALL" ∨ hasSub user.permissions.data door.data = true) →
          rssiTooWeak r = false → d = some dv → DISTANCE_THRESHOLD < dv →
          validate s tok r d door now
            = (.deny "distance_too_far", { s with shortTokens := setUsed tok 2 s.shortTokens }))
      ∧ ((user.permissions = "ALL" ∨ hasSub user.permissions.data door.data = true) →
          rssiTooWeak r = false → distTooFar d = false →
          validate s tok r d door now
            = (.grant, { s with shortTokens := setUsed tok 1 s.shortTokens }))) := by
  intro s tok e user r d door now htok hdoor hfind hexp hused huser
  refine ⟨?_, ?_, ?_, ?_⟩
  · intro hA hB
    have hperm : ¬ (user.permissions = "ALL" ∨ hasSub user.permissions.data door.data = true) := by
      simp [hA, hB]
    simp [validate, validateGetEntry, validateAfterEntry, htok, hdoor, hfind, hexp, hused,
      huser, hperm]
  · intro rv hperm hr hrv
    subst hr
    have hrw : rssiTooWeak (some rv) = true := by simp [rssiTooWeak, hrv]
    simp [validate, validateGetEntry, validateAfterEntry, htok, hdoor, hfind, hexp, hused,
      huser, hperm, hrw]
  · intro dv hperm hrw hd hdv
    subst hd
    have hdf : distTooFar (some dv) = true := by simp [distTooFar, hdv]
    simp [validate, validateGetEntry, validateAfterEntry, htok, hdoor, hfind, hexp, hused,
      huser, hperm, hrw, hdf]
  · intro hperm hrw hdf
    simp [validate, validateGetEntry, validateAfterEntry, htok, hdoor, hfind, hexp, hused,
      huser, hperm, hrw, hdf]

/-- A store whose credential E opens only the door LAB_968 and has a
Pending, unexpired short token T. -/
def c4WitState : ServerState :=
  ⟨[("E", ⟨"LAB_968", 0, 1000000⟩)], [], [("T", ⟨"E", 0, 1000000, 0⟩)], []⟩

/-- Instantiation of the check-order theorem at all four branches: wrong door
denies insufficient_permissions, weak signal denies rssi_too_weak even with a
close distance, excess distance denies distance_too_far, and passing checks
grant. -/
theorem validate_check_order_witness :
    validate c4WitState "T" (some (-60)) (some 50) "LAB_969" 10
      = (.deny "insufficient_permissions",
         { c4WitState with shortTokens := setUsed "T" 2 c4WitState.shortTokens })
    ∧ validate c4WitState "T" (some (-80)) (some 50) "LAB_968" 10
      = (.deny "rssi_too_weak",
         { c4WitState with shortTokens := setUsed "T" 2 c4WitState.shortTokens })
    ∧ validate c4WitState "T" (some (-60)) (some 120) "LAB_968" 10
      = (.deny "distance_too_far",
         { c4WitState with shortTokens := setUsed "T" 2 c4WitState.shortTokens })
    ∧ validate c4WitState "T" (some (-60)) (some 50) "LAB_968" 10
      = (.grant, { c4WitState with shortTokens := setUsed "T" 1 c4WitState.shortTokens }) :=
  ⟨(validate_check_order c4WitState "T" ⟨"E", 0, 1000000, 0⟩ ⟨"LAB_968", 0, 1000000⟩
      (some (-60)) (some 50) "LAB_969" 10 (by decide) (by decide) (by decide) (by decide)
      (by decide) (by decide)).1 (by decide) (by decide),
   (validate_check_order c4WitState "T" ⟨"E", 0, 1000000, 0⟩ ⟨"LAB_968", 0, 1000000⟩
      (some (-80)) (some 50) "LAB_968" 10 (by decide) (by decide) (by decide) (by decide)
      (by decide) (by decide)).2.1 (-80) (by decide) rfl (by decide),
   (validate_check_order c4WitState "T" ⟨"E", 0, 1000000, 0⟩ ⟨"LAB_968", 0, 1000000⟩
      (some (-60)) (some 120) "LAB_968" 10 (by decide) (by decide) (by decide) (by decide)
      (by decide) (by decide)).2.2.1 120 (by decide) (by decide) rfl (by decide),
   (validate_check_order c4WitState "T" ⟨"E", 0, 1000000, 0⟩ ⟨"LAB_968", 0, 1000000⟩
      (some (-60)) (some 50) "LAB_968" 10 (by decide) (by decide) (by decide) (by decide)
      (by decide) (by decide)).2.2.2 (by decide) (by decide) (by decide)⟩

/-- C6 (amended): validate treats an expired Pending token as absent — it
denies with reason expired and purges the row immediately, after which the
token is gone from the store and a status poll reports expired; a status
poll made before any such purge, however, still reports pending (see the
counterexample), since check-status never consults the expiry column. -/
theorem validate_purges_expired_token :
    ∀ (s : ServerState) (tok : String) (e : ShortToken) (r d : Option Int)
      (door : String) (now : Int),
      tok ≠ "" → door ≠ "" →
      findRow tok s.shortTokens = some e → e.expires_at ≤ now → e.used = 0 →
      validate s tok r d door now
        = (.deny "expired", { s with shortTokens := eraseRow tok s.shortTokens })
      ∧ findRow tok ({ s with shortTokens := eraseRow tok s.shortTokens } :
          ServerState).shortTokens = none
      ∧ checkStatus { s with shortTokens := eraseRow tok s.shortTokens } tok
          = Status.expired := by
  intro s tok e r d door now htok hdoor hfind hexp hused
  refine ⟨?_, ?_, ?_⟩
  · simp [validate, validateGetEntry, validateAfterEntry, htok, hdoor, hfind, hexp]
  · exact findRow_eraseRow_self tok s.shortTokens
  · simp [checkStatus, htok, findRow_eraseRow_self]

/-- Instantiation: the expired Pending token T is denied expired, purged,
and the poll of the post-purge store reports expired. -/
theorem validate_purges_expired_token_witness :
    validate c6CexState "T" none none "D" 60
      = (.deny "expired", { c6CexState with shortTokens := eraseRow "T" c6CexState.shortTokens })
    ∧ checkStatus { c6CexState with shortTokens := eraseRow "T" c6CexState.shortTokens } "T"
        = Status.expired :=
  ⟨(validate_purges_expired_token c6CexState "T" ⟨"E", 0, 50, 0⟩ none none "D" 60
      (by decide) (by decide) (by decide) (by decide) (by decide)).1,
   (validate_purges_expired_token c6CexState "T" ⟨"E", 0, 50, 0⟩ none none "D" 60
      (by decide) (by decide) (by decide) (by decide) (by decide)).2.2⟩

/-- C7: rate-limit admission per credential in request-token: under an
active suspension the request is denied with no mutation; otherwise
timestamps older than the window are pruned, and a pruned window at capacity
records a one-full-window suspension with a cleared list and denies; an
under-capacity window appends the current timestamp, clears the suspension
marker, and the request is allowed — a short token is then issued.  Every
timestamp stored by the allowed branch lies within the window. -/
theorem requestToken_rate_limiting :
    ∀ (s : ServerState) (etok : String) (now : Int) (ntok : String)
      (user : Enrollment) (rd : RateRow),
      etok ≠ "" → findRow etok s.enrollments = some user → ¬ user.expires_at < now →
      (findRow etok s.rateLimits).getD ⟨[], 0⟩ = rd →
      ((now < rd.suspended_until →
          requestToken s etok now ntok = (.rateLimited rd.suspended_until, s))
      ∧ (rd.suspended_until ≤ now →
          MAX_REQUESTS ≤ (rd.requests.filter (fun ts => decide (ts > now - WINDOW_MS))).length →
          requestToken s etok now ntok
            = (.rateLimited (now + WINDOW_MS),
               { s with rateLimits := upsertRate etok ⟨[], now + WINDOW_MS⟩ s.rateLimits }))
      ∧ (rd.suspended_until ≤ now →
          (rd.requests.filter (fun ts => decide (ts > now - WINDOW_MS))).length < MAX_REQUESTS →
          findRow ntok s.shortTokens = none →
          requestToken s etok now ntok
            = (.issued ntok (now + SHORT_TOKEN_TTL_MS),
               { s with
                  rateLimits := upsertRate etok
                    ⟨(rd.requests.filter (fun ts => decide (ts > now - WINDOW_MS))) ++ [now], 0⟩
                    s.rateLimits,
                  shortTokens := s.shortTokens
                    ++ [(ntok, ⟨etok, now, now + SHORT_TOKEN_TTL_MS, 0⟩)] })
          ∧ ∀ ts ∈ (rd.requests.filter (fun ts => decide (ts > now - WINDOW_MS))) ++ [now],
              now - WINDOW_MS < ts)) := by
  intro s etok now ntok user rd hetok hfind hexp hrd
  refine ⟨?_, ?_, ?_⟩
  · intro hsus
    simp [requestToken, hetok, hfind, hexp, hrd, rateAdmit, hsus]
  · intro hsus hlen
    have hns : ¬ rd.suspended_until > now := not_lt.mpr hsus
    simp [requestToken, hetok, hfind, hexp, hrd, rateAdmit, hns, hlen]
  · intro hsus hlen hnew
    have hns : ¬ rd.suspended_until > now := not_lt.mpr hsus
    have hlt : ¬ (rd.requests.filter (fun ts => decide (ts > now - WINDOW_MS))).length
        ≥ MAX_REQUESTS := not_le.mpr hlen
    refine ⟨?_, ?_⟩
    · simp [requestToken, hetok, hfind, hexp, hrd, rateAdmit, hns, hlt, hnew]
    · intro ts hts
      rcases List.mem_append.mp hts with hmem | hmem
      · have := List.of_mem_filter hmem
        exact of_decide_eq_true this
      · have : ts = now := by simpa using hmem
        subst this
        have : (0 : Int) < WINDOW_MS := by decide
        omega

/-- A store whose credential E already has three in-window requests
recorded and no active suspension. -/
def c7WitState : ServerState :=
  ⟨[("E", ⟨"ALL", 0, 1000000⟩)], [("S", "E")], [], [("E", ⟨[100, 120, 130], 0⟩)]⟩

/-- Instantiation: with the window at capacity, a fourth request at time 200
is denied and a suspension of one full window is recorded with a cleared
list. -/
theorem requestToken_rate_limiting_witness :
    requestToken c7WitState "E" 200 "NEW"
      = (.rateLimited (200 + WINDOW_MS),
         { c7WitState with
            rateLimits := upsertRate "E" ⟨[], 200 + WINDOW_MS⟩ c7WitState.rateLimits }) :=
  (requestToken_rate_limiting c7WitState "E" 200 "NEW" ⟨"ALL", 0, 1000000⟩
      ⟨[100, 120, 130], 0⟩ (by decide) (by decide) (by decide) (by decide)).2.1
    (by decide) (by decide)

/-- C8: revoke deletes exactly the credential row and the student's
identity-map row: short tokens and rate-limit rows are untouched, every
other enrollment and identity-map row is preserved, and an already-issued
Pending short token of the revoked credential is denied only later, at
validation time, with reason access_revoked and a Denied (used = 2) commit. -/
theorem revoke_frame_effect :
    ∀ (s : ServerState) (sid tok secret : String),
      sid ≠ "" → findRow sid s.identityMap = some tok →
      (revoke s sid secret secret
        = (.ok, { s with enrollments := eraseRow tok s.enrollments,
                         identityMap := eraseRow sid s.identityMap }))
      ∧ (revoke s sid secret secret).2.shortTokens = s.shortTokens
      ∧ (revoke s sid secret secret).2.rateLimits = s.rateLimits
      ∧ findRow tok (revoke s sid secret secret).2.enrollments = none
      ∧ (∀ k, k ≠ tok →
          findRow k (revoke s sid secret secret).2.enrollments = findRow k s.enrollments)
      ∧ (∀ k, k ≠ sid →
          findRow k (revoke s sid secret secret).2.identityMap = findRow k s.identityMap)
      ∧ (∀ (st : String) (e : ShortToken) (r d : Option Int) (door : String) (now : Int),
          st ≠ "" → door ≠ "" →
          findRow st (revoke s sid secret secret).2.shortTokens = some e →
          e.enrollment_token = tok → ¬ e.expires_at ≤ now → e.used = 0 →
          validate (revoke s sid secret secret).2 st r d door now
            = (.deny "access_revoked",
               { (revoke s sid secret secret).2 with
                  shortTokens := setUsed st 2 (revoke s sid secret secret).2.shortTokens })) := by
  intro s sid tok secret hsid hfind
  have hrev : revoke s sid secret secret
      = (.ok, { s with enrollments := eraseRow tok s.enrollments,
                       identityMap := eraseRow sid s.identityMap }) := by
    simp [revoke, hsid, hfind]
  refine ⟨hrev, ?_, ?_, ?_, ?_, ?_, ?_⟩
  · rw [hrev]
  · rw [hrev]
  · rw [hrev]
    exact findRow_eraseRow_self tok s.enrollments
  · intro k hk
    rw [hrev]
    exact findRow_eraseRow_other k tok s.enrollments hk
  · intro k hk
    rw [hrev]
    exact findRow_eraseRow_other k sid s.identityMap hk
  · intro st e r d door now hst hdoor hfind₂ het hexp hused
    rw [hrev] at hfind₂ ⊢
    have hgone : findRow e.enrollment_token
        (eraseRow tok s.enrollments) = none := by
      rw [het]
      exact findRow_eraseRow_self tok s.enrollments
    simp only [validate, validateGetEntry, validateAfterEntry] at *
    simp [hst, hdoor, hfind₂, hexp, hused, hgone]

/-- A store with one enrolled student S (credential E) and a Pending,
unexpired short token T issued for E. -/
def c8WitState : ServerState :=
  ⟨[("E", ⟨"ALL", 0, 1000000⟩)], [("S", "E")], [("T", ⟨"E", 0, 1000000, 0⟩)], []⟩

/-- Instantiation: revoking student S deletes exactly E's rows, and the
already-issued token T is later denied access_revoked at validation. -/
theorem revoke_frame_effect_witness :
    revoke c8WitState "S" "sec" "sec"
      = (.ok, { c8WitState with enrollments := eraseRow "E" c8WitState.enrollments,
                                identityMap := eraseRow "S" c8WitState.identityMap })
    ∧ validate (revoke c8WitState "S" "sec" "sec").2 "T" (some (-60)) (some 50) "D" 10
      = (.deny "access_revoked",
         { (revoke c8WitState "S" "sec" "sec").2 with
            shortTokens := setUsed "T" 2 (revoke c8WitState "S" "sec" "sec").2.shortTokens }) :=
  ⟨(revoke_frame_effect c8WitState "S" "E" "sec" (by decide) (by decide)).1,
   (revoke_frame_effect c8WitState "S" "E" "sec" (by decide) (by decide)).2.2.2.2.2.2
      "T" ⟨"E", 0, 1000000, 0⟩ (some (-60)) (some 50) "D" 10
      (by decide) (by decide) (by decide) rfl (by decide) (by decide)⟩

end SmartLock
